import Mathlib

/-!
Shallow embedding of the poly_market_maker repository
(`poly_market_maker/types.py`, `poly_market_maker/strategies/front_run_strategy.py`,
`poly_market_maker/strategy.py`) used to check the natural-language specification.

Modelling conventions:
* Python `float` prices/sizes are modelled as exact rationals (`Rat`);
  every numeric literal appearing in the claims (0.01, 0.99, 0.1, 10) is exact.
* `datetime` timestamps are modelled as `Int` seconds; `timedelta(seconds=n)` is `+ n`.
* Python `None` becomes `Option.none`; a fallible call becomes `Option`/`Except`.
* The `Token` enum of `types.py` also has a member `C` (the collateral
  pseudo-token used only as a balances key); every function embedded here is
  only ever called with `A` or `B` by the source, and the claims only mention
  the two outcome tokens, so `Token` is modelled with the two outcome members
  and the collateral entry of a balances record is kept separately.
-/

namespace PolyMM

/-- The two complementary outcome tokens (`types.py`, `class Token`). -/
inductive Token where
  | A
  | B
deriving DecidableEq, Repr

/-- Order side (`types.py`, `class Side`). -/
inductive Side where
  | BUY
  | SELL
deriving DecidableEq, Repr

/-- Order time-in-force (`py_clob_client.clob_types.OrderType`, as used by the
strategy: GTC rests, FOK fills fully now or is rejected). -/
inductive OrderType where
  | GTC
  | FOK
deriving DecidableEq, Repr

/-- One price level (`types.py`, `OrderBookEntry`). -/
structure OrderBookEntry where
  price : Rat
  size : Rat
deriving DecidableEq, Repr

/-- An order (`poly_market_maker/orderbook.py` is not under `src/`; the record
is modelled from the spec's data model, `Order: size, price, side, token,
order_type, optional exchange id`, which matches every constructor call in
`front_run_strategy.py` and `app_front_run.py`). -/
structure Order where
  size : Rat
  price : Rat
  side : Side
  token : Token
  order_type : OrderType
  id : Option String
deriving DecidableEq, Repr

/-- Balances record: collateral pseudo-token plus the two outcome tokens
(shape of `AppFrontRun.get_balances`). -/
structure Balances where
  collateral : Rat
  tokenA : Rat
  tokenB : Rat
deriving DecidableEq, Repr

/-- `types.py`, `class OwnOrderBook`: the account snapshot stored inside a
`MarketState`. -/
structure OwnOrderBook where
  orders : List Order
  balances : Balances
  orders_being_placed : Bool
  orders_being_cancelled : Bool
deriving DecidableEq, Repr

/-- `types.py`, `class MarketState` (a `slots` dataclass).  The four derived
statistics are `None` by default and filled in by `__post_init__`, modelled by
`MarketState.make` below. -/
structure MarketState where
  timestamp : Int
  away_team_price : Rat
  home_team_price : Rat
  away_team_bids : List OrderBookEntry
  away_team_asks : List OrderBookEntry
  own_orders : OwnOrderBook
  away_team_mid_price : Option Rat
  home_team_mid_price : Option Rat
  spread : Option Rat
  volume_24h : Option Rat
deriving DecidableEq, Repr

/-- `MarketState.__post_init__`: derived statistics are computed only when both
token-A books are non-empty. -/
def MarketState.make (timestamp : Int) (away_team_price home_team_price : Rat)
    (away_team_bids away_team_asks : List OrderBookEntry)
    (own_orders : OwnOrderBook) : MarketState :=
  let base : MarketState :=
    { timestamp, away_team_price, home_team_price, away_team_bids,
      away_team_asks, own_orders,
      away_team_mid_price := none, home_team_mid_price := none,
      spread := none, volume_24h := none }
  match (away_team_bids.map (fun b => b.price)).max?,
      (away_team_asks.map (fun a => a.price)).min? with
  | some best_bid, some best_ask =>
      { base with
        away_team_mid_price := some ((best_bid + best_ask) / 2),
        home_team_mid_price := some (1 - (best_bid + best_ask) / 2),
        spread := some (best_ask - best_bid) }
  | _, _ => base

/-- `MarketState.get_bids`: token A passes the stored bids through; token B's
bids are synthesized from token A's asks with complemented prices. -/
def MarketState.get_bids (ms : MarketState) : Token → List OrderBookEntry
  | Token.A => ms.away_team_bids
  | Token.B => ms.away_team_asks.map (fun bid => { price := 1 - bid.price, size := bid.size })

/-- `MarketState.get_asks`: token A passes the stored asks through; token B's
asks are synthesized from token A's bids with complemented prices. -/
def MarketState.get_asks (ms : MarketState) : Token → List OrderBookEntry
  | Token.A => ms.away_team_asks
  | Token.B => ms.away_team_bids.map (fun ask => { price := 1 - ask.price, size := ask.size })

/-- `MarketState.get_max_bid`: `None` on an empty bid side, else the first
(highest, books are stored descending) bid price. -/
def MarketState.get_max_bid (ms : MarketState) (token : Token) : Option Rat :=
  (ms.get_bids token).head?.map (fun b => b.price)

/-- `MarketState.get_min_ask`: `None` on an empty ask side, else the first
(lowest, books are stored ascending) ask price. -/
def MarketState.get_min_ask (ms : MarketState) (token : Token) : Option Rat :=
  (ms.get_asks token).head?.map (fun a => a.price)

/-- `MarketState.get_best_limit_price`: a BUY wants the best ask, a SELL the
best bid. -/
def MarketState.get_best_limit_price (ms : MarketState) (token : Token) : Side → Option Rat
  | Side.BUY => ms.get_min_ask token
  | Side.SELL => ms.get_max_bid token

/-- `types.py`, `class ScoreBoard`. -/
structure ScoreBoard where
  away_score : Int
  home_score : Int
  game_time : String
deriving DecidableEq, Repr

/-- `types.py`, `class SportsStrategyState`: the full decision input of one
tick. -/
structure SportsStrategyState where
  market_state : MarketState
  score_board : ScoreBoard
deriving DecidableEq, Repr

/-- `types.py`, `class OrderReset`. -/
structure OrderReset where
  trigger_timestamp : Int
  token : Token
  size : Rat
deriving DecidableEq, Repr

/-- Substring search on character lists: does `pat` occur contiguously? -/
def listContains (pat : List Char) : List Char → Bool
  | [] => pat.isEmpty
  | c :: rest => pat.isPrefixOf (c :: rest) || listContains pat rest

/-- Python's `"pat" in s` substring test. -/
def strContains (pat s : String) : Bool :=
  listContains pat.toList s.toList

/-- C8: `get_bids`/`get_asks` complement prices pairwise with sizes preserved,
and token A's queries pass the stored books through unchanged. -/
theorem complementary_books (ms : MarketState) :
    ms.get_bids Token.A = ms.away_team_bids ∧
    ms.get_asks Token.A = ms.away_team_asks ∧
    (∀ i : Nat, (ms.get_bids Token.B)[i]? =
      ((ms.get_asks Token.A)[i]?).map
        (fun e => { price := 1 - e.price, size := e.size })) ∧
    (∀ i : Nat, (ms.get_asks Token.B)[i]? =
      ((ms.get_bids Token.A)[i]?).map
        (fun e => { price := 1 - e.price, size := e.size })) := by
  refine ⟨rfl, rfl, ?_, ?_⟩ <;>
    intro i <;>
    simp [MarketState.get_bids, MarketState.get_asks, List.getElem?_map]

/-- `front_run_strategy.py`, the strategy's own mutable fields: the remembered
previous `SportsStrategyState`, the single pending `OrderReset`, and the two
config constants set in `__init__` (`order_size = 10`, `reset_delay = 10`). -/
structure FrontRunStrategy where
  order_size : Rat
  reset_delay : Int
  state : Option SportsStrategyState
  reset : Option OrderReset
deriving DecidableEq, Repr

/-- The freshly constructed strategy (`FrontRunStrategy.__init__`). -/
def FrontRunStrategy.init : FrontRunStrategy :=
  { order_size := 10, reset_delay := 10, state := none, reset := none }

/-- `away_diff = new.away_score - old.away_score`. -/
def scoreAwayDiff (old new : ScoreBoard) : Int :=
  new.away_score - old.away_score

/-- `home_diff = new.home_score - old.home_score`. -/
def scoreHomeDiff (old new : ScoreBoard) : Int :=
  new.home_score - old.home_score

/-- `old_diff = abs(old.away_score - old.home_score)`. -/
def scoreOldDiff (old : ScoreBoard) : Int :=
  |old.away_score - old.home_score|

/-- `new_diff = abs(new.away_score - new.home_score)`. -/
def scoreNewDiff (new : ScoreBoard) : Int :=
  |new.away_score - new.home_score|

/-- `diff_in_diff = abs(new_diff - old_diff)`. -/
def scoreDiffInDiff (old new : ScoreBoard) : Int :=
  |scoreNewDiff new - scoreOldDiff old|

/-- `diff_pct = diff_in_diff * 1.0 / old_diff if old_diff > 0 else 1`. -/
def scoreDiffPct (old new : ScoreBoard) : Rat :=
  if scoreOldDiff old > 0 then
    (scoreDiffInDiff old new : Rat) / (scoreOldDiff old : Rat)
  else 1

/-- `FrontRunStrategy._get_favored_token`.  `None` when either state is
missing; once the game is `Final` the higher final score wins (ties favor B);
otherwise the signal fires iff `diff_in_diff >= 2 and diff_pct >= 0.1`, and
the favored token is A if the away score advanced, else B if the home score
advanced, else none. -/
def get_favored_token (old_state new_state : Option SportsStrategyState) : Option Token :=
  match old_state, new_state with
  | none, _ => none
  | _, none => none
  | some old, some new =>
    if strContains "Final" new.score_board.game_time then
      if new.score_board.away_score > new.score_board.home_score then
        some Token.A
      else
        some Token.B
    else
      if scoreDiffInDiff old.score_board new.score_board ≥ 2 ∧
          scoreDiffPct old.score_board new.score_board ≥ 1/10 then
        if scoreAwayDiff old.score_board new.score_board > 0 then
          some Token.A
        else if scoreHomeDiff old.score_board new.score_board > 0 then
          some Token.B
        else
          none
      else
        none

/-- `FrontRunStrategy.build_order`.  A SELL is always a FOK at the floor price
0.01; a BUY takes the best limit price as a GTC, and when that price is absent
either falls back to a FOK at 0.99 (`default_to_FOK=True`) or builds nothing
(`default_to_FOK=False`).  The size is always the configured `order_size`. -/
def FrontRunStrategy.build_order (s : FrontRunStrategy) (state : SportsStrategyState)
    (token : Token) (side : Side) (default_to_FOK : Bool) : Option Order :=
  let price := state.market_state.get_best_limit_price token side
  if side = Side.SELL then
    some { size := s.order_size, price := 1/100, side := side, token := token,
           order_type := OrderType.FOK, id := none }
  else
    match price with
    | none =>
        if default_to_FOK then
          some { size := s.order_size, price := 99/100, side := side, token := token,
                 order_type := OrderType.FOK, id := none }
        else
          none
    | some p =>
        some { size := s.order_size, price := p, side := side, token := token,
               order_type := OrderType.GTC, id := none }

/-- `FrontRunStrategy.consume_reset`: one SELL-flatten order for the reset's
token (built with `default_to_FOK=True`, so always present), plus a cancel
intent for every currently open own order on that token. -/
def FrontRunStrategy.consume_reset (s : FrontRunStrategy) (reset : OrderReset)
    (state : SportsStrategyState) : List Order × List Order :=
  ((s.build_order state reset.token Side.SELL true).toList,
   state.market_state.own_orders.orders.filter (fun o => o.token == reset.token))

/-- The candidate reset built from a freshly placed signal order
(`reset_from_new_order` in `get_orders`): trigger is the tick timestamp plus
`reset_delay`, token and size those of the new order. -/
def FrontRunStrategy.candidateReset (s : FrontRunStrategy)
    (new_state : SportsStrategyState) (new_order : Order) : OrderReset :=
  { trigger_timestamp := new_state.market_state.timestamp + s.reset_delay,
    token := new_order.token,
    size := new_order.size }

/-- The signal-handling prefix of `FrontRunStrategy.get_orders` (the
`for favored_token in [...]` block, lines 146-199): returns the place and
cancel intents accumulated so far together with the value of `self.reset`
after signal handling.  A missing favored token or a skipped BUY
(`build_order` returning `None` in strict mode) leaves the pending reset
untouched; otherwise the candidate is installed, merged (same token: sizes
summed, the candidate's trigger kept), or the old reset of the other token is
consumed early and replaced by the candidate. -/
def FrontRunStrategy.signalStep (s : FrontRunStrategy)
    (new_state : SportsStrategyState) : List Order × List Order × Option OrderReset :=
  match get_favored_token s.state (some new_state) with
  | none => ([], [], s.reset)
  | some favored =>
    match s.build_order new_state favored Side.BUY false with
    | none => ([], [], s.reset)
    | some new_order =>
      let cand := s.candidateReset new_state new_order
      match s.reset with
      | none => ([new_order], [], some cand)
      | some r =>
        if r.token ≠ favored then
          ([new_order] ++ (s.consume_reset r new_state).1,
           (s.consume_reset r new_state).2,
           some cand)
        else
          ([new_order], [],
           some { trigger_timestamp := cand.trigger_timestamp,
                  token := cand.token,
                  size := r.size + cand.size })

/-- `FrontRunStrategy.get_orders` (decision core, lines 135-233): signal
handling followed by the natural-expiry check
(`self.reset and self.reset.trigger_timestamp <= new_state.market_state.timestamp`),
which consumes the post-signal pending reset and clears it; finally the new
state is remembered as the previous state.  Returns
`(orders_to_place, orders_to_cancel, updated strategy)`. -/
def FrontRunStrategy.get_orders (s : FrontRunStrategy)
    (new_state : SportsStrategyState) : List Order × List Order × FrontRunStrategy :=
  let sig := s.signalStep new_state
  match sig.2.2 with
  | some r =>
    if r.trigger_timestamp ≤ new_state.market_state.timestamp then
      (sig.1 ++ (s.consume_reset r new_state).1,
       sig.2.1 ++ (s.consume_reset r new_state).2,
       { s with state := some new_state, reset := none })
    else
      (sig.1, sig.2.1, { s with state := some new_state, reset := some r })
  | none => (sig.1, sig.2.1, { s with state := some new_state, reset := none })

/-- The reset consumed by the natural-expiry check of a tick, when any:
the post-signal pending reset, provided its trigger has passed. -/
def FrontRunStrategy.naturalConsumed (s : FrontRunStrategy)
    (new_state : SportsStrategyState) : Option OrderReset :=
  match (s.signalStep new_state).2.2 with
  | some r =>
      if r.trigger_timestamp ≤ new_state.market_state.timestamp then some r else none
  | none => none

/-- A whole run of the decision machine: fold `get_orders` over a recorded
sequence of tick states, collecting the (place, cancel) intent pairs. -/
def runFrontRun : FrontRunStrategy → List SportsStrategyState → List (List Order × List Order)
  | _, [] => []
  | s, x :: xs =>
    let step := s.get_orders x
    (step.1, step.2.1) :: runFrontRun step.2.2 xs

/-- Python runtime errors relevant to the embedded code. -/
inductive PyError where
  | attributeError
deriving DecidableEq, Repr

/-- The full `FrontRunStrategy.get_orders` including its epilogue
(lines 232-238).  After the decision core, `self.state = new_state` succeeds,
but the next statement calls `self.state.market_state.set_orders_to_place(...)`
— `types.MarketState` (a `slots` dataclass, lines 300-391 of `types.py`)
defines no `set_orders_to_place` or `set_orders_to_cancel` method, so the call
raises `AttributeError` on every tick and the computed intent lists are never
returned to the caller.  The strategy's memory (previous state and pending
reset) has already been updated when the exception fires. -/
def FrontRunStrategy.get_orders_py (s : FrontRunStrategy)
    (new_state : SportsStrategyState) :
    Except PyError (List Order × List Order) × FrontRunStrategy :=
  (Except.error PyError.attributeError, (s.get_orders new_state).2.2)

/-! ### Concrete replay scenario

A four-tick recorded game used by the counterexamples and witnesses:
tick 0 seeds the previous-state memory, ticks 1 and 2 fire two same-token
signals for A (scores (0,0) then (3,0) then (6,0)) which install and merge a
pending reset, and tick 3 (no score change, timestamp past the trigger)
consumes the merged reset naturally while one own order on token A is open. -/

/-- Book used throughout the scenario: one bid at 0.4, one ask at 0.5. -/
def demoBids : List OrderBookEntry := [{ price := 2/5, size := 50 }]

/-- See `demoBids`. -/
def demoAsks : List OrderBookEntry := [{ price := 1/2, size := 100 }]

/-- Own-order book with no open orders. -/
def demoOwnEmpty : OwnOrderBook :=
  { orders := [], balances := { collateral := 1000, tokenA := 0, tokenB := 0 },
    orders_being_placed := false, orders_being_cancelled := false }

/-- The single open own order on token A present at tick 3. -/
def demoOpenOrder : Order :=
  { size := 5, price := 2/5, side := Side.BUY, token := Token.A,
    order_type := OrderType.GTC, id := some "o1" }

/-- Own-order book holding `demoOpenOrder`. -/
def demoOwnA : OwnOrderBook :=
  { demoOwnEmpty with orders := [demoOpenOrder] }

/-- One scenario tick state. -/
def demoState (ts : Int) (away home : Int) (own : OwnOrderBook) : SportsStrategyState :=
  { market_state := MarketState.make ts (1/2) (1/2) demoBids demoAsks own,
    score_board := { away_score := away, home_score := home, game_time := "Q1" } }

/-- Tick 0: seeds the previous state, no signal possible. -/
def demoSt0 : SportsStrategyState := demoState (-5) 0 0 demoOwnEmpty

/-- Tick 1 (t=0): scores (0,0) to (3,0), signal for A. -/
def demoSt1 : SportsStrategyState := demoState 0 3 0 demoOwnEmpty

/-- Tick 2 (t=5): scores (3,0) to (6,0), second signal for A before expiry. -/
def demoSt2 : SportsStrategyState := demoState 5 6 0 demoOwnEmpty

/-- Tick 3 (t=20): no score change, past the merged trigger. -/
def demoSt3 : SportsStrategyState := demoState 20 6 0 demoOwnA

/-- Strategy memory after tick 0. -/
def demoS1 : FrontRunStrategy := (FrontRunStrategy.init.get_orders demoSt0).2.2

/-- Strategy memory after tick 1 (pending reset installed). -/
def demoS2 : FrontRunStrategy := (demoS1.get_orders demoSt1).2.2

/-- Strategy memory after tick 2 (pending reset merged). -/
def demoS3 : FrontRunStrategy := (demoS2.get_orders demoSt2).2.2

/-- Scoreboards for the favored-token counterexample: the away score drops
from 3 to 0 while the game is live. -/
def dropOld : SportsStrategyState := demoState 0 3 0 demoOwnEmpty

/-- See `dropOld`. -/
def dropNew : SportsStrategyState := demoState 1 1 0 demoOwnEmpty

/-- Tick state whose token-A ask side is empty, so the best BUY limit price is
absent. -/
def noAskState : SportsStrategyState :=
  { market_state := MarketState.make 0 (1/2) (1/2) demoBids [] demoOwnEmpty,
    score_board := { away_score := 0, home_score := 0, game_time := "Q1" } }

/-- Evaluation of tick 0: the previous state is remembered, no signal, no
reset. -/
theorem demoS1_eq :
    demoS1 = { order_size := 10, reset_delay := 10, state := some demoSt0, reset := none } := by
  norm_num [demoS1, FrontRunStrategy.get_orders, FrontRunStrategy.signalStep,
    FrontRunStrategy.init, get_favored_token]

/-- Evaluation of tick 1: the (0,0) to (3,0) signal for A installs the pending
reset with trigger 0 + 10 = 10 and size 10. -/
theorem demoS2_eq :
    demoS2 = { order_size := 10, reset_delay := 10, state := some demoSt1,
               reset := some { trigger_timestamp := 10, token := Token.A, size := 10 } } := by
  norm_num +decide [demoS2, demoS1_eq, FrontRunStrategy.get_orders, FrontRunStrategy.signalStep,
    FrontRunStrategy.build_order, FrontRunStrategy.candidateReset,
    get_favored_token, strContains, listContains, List.isPrefixOf,
    scoreDiffInDiff, scoreDiffPct, scoreOldDiff, scoreNewDiff, scoreAwayDiff, scoreHomeDiff,
    demoSt0, demoSt1, demoState, MarketState.make,
    MarketState.get_best_limit_price, MarketState.get_min_ask, MarketState.get_max_bid,
    MarketState.get_bids, MarketState.get_asks, demoBids, demoAsks]

/-- Evaluation of tick 2: the second A signal merges into the pending reset,
which now carries size 10 + 10 = 20 and the new trigger 5 + 10 = 15. -/
theorem demoS3_eq :
    demoS3 = { order_size := 10, reset_delay := 10, state := some demoSt2,
               reset := some { trigger_timestamp := 15, token := Token.A, size := 20 } } := by
  norm_num +decide [demoS3, demoS2_eq, FrontRunStrategy.get_orders, FrontRunStrategy.signalStep,
    FrontRunStrategy.build_order, FrontRunStrategy.candidateReset,
    get_favored_token, strContains, listContains, List.isPrefixOf,
    scoreDiffInDiff, scoreDiffPct, scoreOldDiff, scoreNewDiff, scoreAwayDiff, scoreHomeDiff,
    demoSt1, demoSt2, demoState, MarketState.make,
    MarketState.get_best_limit_price, MarketState.get_min_ask, MarketState.get_max_bid,
    MarketState.get_bids, MarketState.get_asks, demoBids, demoAsks]

/-- Evaluation of tick 3: no signal, the merged reset (trigger 15 ≤ 20)
expires naturally — one SELL FOK of size 10 at 0.01, a cancel intent for the
open own A order, pending reset cleared. -/
theorem demoTick3_eq :
    demoS3.get_orders demoSt3 =
      ([{ size := 10, price := 1/100, side := Side.SELL, token := Token.A,
          order_type := OrderType.FOK, id := none }],
       [demoOpenOrder],
       { order_size := 10, reset_delay := 10, state := some demoSt3, reset := none }) := by
  norm_num +decide [demoS3_eq, FrontRunStrategy.get_orders, FrontRunStrategy.signalStep,
    FrontRunStrategy.build_order, FrontRunStrategy.consume_reset,
    get_favored_token, strContains, listContains, List.isPrefixOf,
    scoreDiffInDiff, scoreDiffPct, scoreOldDiff, scoreNewDiff, scoreAwayDiff, scoreHomeDiff,
    demoSt2, demoSt3, demoState, MarketState.make,
    MarketState.get_best_limit_price, MarketState.get_min_ask, MarketState.get_max_bid,
    MarketState.get_bids, MarketState.get_asks, demoBids, demoAsks,
    demoOwnA, demoOwnEmpty, demoOpenOrder, List.filter]

/-- C2 counterexample: on tick 3 the pending (merged) reset has size 20, yet
the flatten SELL emitted by its consumption has the configured order size 10 —
not the full pending reset size.  (With an unmerged reset the two sizes agree
by coincidence, which is why the defect needs a merge first.) -/
theorem reset_size_counterexample :
    demoS3.reset = some { trigger_timestamp := 15, token := Token.A, size := 20 } ∧
    (demoS3.get_orders demoSt3).1 =
      [{ size := 10, price := 1/100, side := Side.SELL, token := Token.A,
         order_type := OrderType.FOK, id := none }] ∧
    (demoS3.get_orders demoSt3).2.1 = [demoOpenOrder] ∧
    (demoS3.get_orders demoSt3).2.2.reset = none ∧
    ¬ (10 : Rat) = 20 := by
  refine ⟨by rw [demoS3_eq], by rw [demoTick3_eq], by rw [demoTick3_eq], by rw [demoTick3_eq], by norm_num⟩

/-- C3 counterexample: before the merge the pending reset's trigger is 10 and
the new candidate's trigger is 15; the merged reset keeps the candidate's
trigger 15, not the earlier of the two (10). -/
theorem reset_trigger_counterexample :
    demoS2.reset = some { trigger_timestamp := 10, token := Token.A, size := 10 } ∧
    demoSt2.market_state.timestamp + demoS2.reset_delay = 15 ∧
    demoS3.reset = some { trigger_timestamp := 15, token := Token.A, size := 20 } ∧
    ¬ (15 : Int) = min 10 15 := by
  refine ⟨by simp [demoS2_eq], ?_, by simp [demoS3_eq], by norm_num⟩
  simp [demoS2_eq, demoSt2, demoState, MarketState.make, demoBids, demoAsks]

/-- C4 counterexample: scores (3,0) to (1,0) give `diff_in_diff = 2` and
`diff_pct = 2/3`, which meets (indeed strictly exceeds) the 0.1 threshold, yet
no token is favored because neither score advanced — so detection does not
return a token whenever the two threshold conditions hold. -/
theorem favored_token_iff_counterexample :
    scoreDiffInDiff dropOld.score_board dropNew.score_board = 2 ∧
    scoreDiffPct dropOld.score_board dropNew.score_board = 2/3 ∧
    ((2 : Rat)/3 > 1/10) ∧
    strContains "Final" dropNew.score_board.game_time = false ∧
    get_favored_token (some dropOld) (some dropNew) = none := by
  norm_num [get_favored_token, strContains, listContains, List.isPrefixOf,
    scoreDiffInDiff, scoreDiffPct, scoreOldDiff, scoreNewDiff, scoreAwayDiff, scoreHomeDiff,
    dropOld, dropNew, demoState]

/-- C5 counterexample: with an empty ask side the non-strict BUY falls back to
a FOK priced at 0.99, not 1.0. -/
theorem fallback_price_counterexample :
    noAskState.market_state.get_best_limit_price Token.A Side.BUY = none ∧
    FrontRunStrategy.init.build_order noAskState Token.A Side.BUY true =
      some { size := 10, price := 99/100, side := Side.BUY, token := Token.A,
             order_type := OrderType.FOK, id := none } ∧
    ¬ (99 : Rat)/100 = 1 := by
  norm_num +decide [FrontRunStrategy.build_order, FrontRunStrategy.init,
    MarketState.get_best_limit_price, MarketState.get_min_ask, MarketState.get_asks,
    noAskState, MarketState.make, demoBids]

/-! ### Unfolding lemmas for the decision machine -/

/-- A SELL build is always the FOK flatten at the floor price 0.01. -/
theorem build_order_sell (s : FrontRunStrategy) (st : SportsStrategyState)
    (tok : Token) (b : Bool) :
    s.build_order st tok Side.SELL b =
      some { size := s.order_size, price := 1/100, side := Side.SELL, token := tok,
             order_type := OrderType.FOK, id := none } := by
  simp [FrontRunStrategy.build_order]

/-- Whatever a BUY build returns, its side is BUY, its token the requested
one, and its size the configured order size. -/
theorem build_order_buy_fields (s : FrontRunStrategy) (st : SportsStrategyState)
    (tok : Token) (b : Bool) (o : Order)
    (h : s.build_order st tok Side.BUY b = some o) :
    o.side = Side.BUY ∧ o.token = tok ∧ o.size = s.order_size := by
  revert h
  simp only [FrontRunStrategy.build_order]
  cases st.market_state.get_best_limit_price tok Side.BUY <;> cases b <;>
    intro h <;> simp_all <;> subst h <;> simp

/-- `signalStep` when no token is favored. -/
theorem signalStep_no_signal (s : FrontRunStrategy) (new : SportsStrategyState)
    (hf : get_favored_token s.state (some new) = none) :
    s.signalStep new = ([], [], s.reset) := by
  simp [FrontRunStrategy.signalStep, hf]

/-- `signalStep` when a token is favored but the strict BUY is skipped. -/
theorem signalStep_skip (s : FrontRunStrategy) (new : SportsStrategyState)
    (tok : Token) (hf : get_favored_token s.state (some new) = some tok)
    (hb : s.build_order new tok Side.BUY false = none) :
    s.signalStep new = ([], [], s.reset) := by
  simp [FrontRunStrategy.signalStep, hf, hb]

/-- `signalStep` with a fresh signal and no pending reset: install the
candidate. -/
theorem signalStep_install (s : FrontRunStrategy) (new : SportsStrategyState)
    (tok : Token) (o : Order) (hf : get_favored_token s.state (some new) = some tok)
    (hb : s.build_order new tok Side.BUY false = some o)
    (hr : s.reset = none) :
    s.signalStep new = ([o], [], some (s.candidateReset new o)) := by
  simp [FrontRunStrategy.signalStep, hf, hb, hr]

/-- `signalStep` with a signal for the other token: consume the old reset
early and install the candidate. -/
theorem signalStep_early (s : FrontRunStrategy) (new : SportsStrategyState)
    (tok : Token) (o : Order) (r : OrderReset)
    (hf : get_favored_token s.state (some new) = some tok)
    (hb : s.build_order new tok Side.BUY false = some o)
    (hr : s.reset = some r) (ht : r.token ≠ tok) :
    s.signalStep new =
      (o :: (s.consume_reset r new).1, (s.consume_reset r new).2,
       some (s.candidateReset new o)) := by
  simp [FrontRunStrategy.signalStep, hf, hb, hr, ht]

/-- `signalStep` with a signal for the already pending token: merge sizes and
keep the candidate's trigger. -/
theorem signalStep_merge (s : FrontRunStrategy) (new : SportsStrategyState)
    (tok : Token) (o : Order) (r : OrderReset)
    (hf : get_favored_token s.state (some new) = some tok)
    (hb : s.build_order new tok Side.BUY false = some o)
    (hr : s.reset = some r) (ht : r.token = tok) :
    s.signalStep new =
      ([o], [],
       some { trigger_timestamp := (s.candidateReset new o).trigger_timestamp,
              token := (s.candidateReset new o).token,
              size := r.size + (s.candidateReset new o).size }) := by
  simp [FrontRunStrategy.signalStep, hf, hb, hr, ht]

/-- `get_orders` when the post-signal reset's trigger has passed. -/
theorem get_orders_expire (s : FrontRunStrategy) (new : SportsStrategyState)
    (r : OrderReset) (h1 : (s.signalStep new).2.2 = some r)
    (h2 : r.trigger_timestamp ≤ new.market_state.timestamp) :
    s.get_orders new =
      ((s.signalStep new).1 ++ (s.consume_reset r new).1,
       (s.signalStep new).2.1 ++ (s.consume_reset r new).2,
       { s with state := some new, reset := none }) := by
  simp [FrontRunStrategy.get_orders, h1, h2]

/-- `get_orders` when the post-signal reset is still in the future. -/
theorem get_orders_keep (s : FrontRunStrategy) (new : SportsStrategyState)
    (r : OrderReset) (h1 : (s.signalStep new).2.2 = some r)
    (h2 : ¬ r.trigger_timestamp ≤ new.market_state.timestamp) :
    s.get_orders new =
      ((s.signalStep new).1, (s.signalStep new).2.1,
       { s with state := some new, reset := some r }) := by
  simp [FrontRunStrategy.get_orders, h1, h2]

/-- `get_orders` when no reset is pending after signal handling. -/
theorem get_orders_no_reset (s : FrontRunStrategy) (new : SportsStrategyState)
    (h1 : (s.signalStep new).2.2 = none) :
    s.get_orders new =
      ((s.signalStep new).1, (s.signalStep new).2.1,
       { s with state := some new, reset := none }) := by
  simp [FrontRunStrategy.get_orders, h1]

/-- `naturalConsumed` fires exactly when the post-signal reset's trigger has
passed. -/
theorem naturalConsumed_some_iff (s : FrontRunStrategy) (new : SportsStrategyState)
    (r : OrderReset) :
    s.naturalConsumed new = some r ↔
      ((s.signalStep new).2.2 = some r ∧
       r.trigger_timestamp ≤ new.market_state.timestamp) := by
  unfold FrontRunStrategy.naturalConsumed
  rcases h : (s.signalStep new).2.2 with _ | r'
  · simp
  · by_cases h2 : r'.trigger_timestamp ≤ new.market_state.timestamp
    · simp only [if_pos h2]
      constructor
      · intro h3
        refine ⟨h3, ?_⟩
        obtain rfl := Option.some_inj.mp h3
        exact h2
      · rintro ⟨h3, _⟩
        exact h3
    · simp only [if_neg h2]
      constructor
      · intro h3
        exact Option.noConfusion h3
      · rintro ⟨h3, hle⟩
        obtain rfl := Option.some_inj.mp h3
        exact absurd hle h2

/-- If no reset was pending before the tick, any post-signal reset is the
fresh candidate, whose trigger sits `reset_delay` past the tick timestamp. -/
theorem signalStep_fresh_trigger (s : FrontRunStrategy) (new : SportsStrategyState)
    (r : OrderReset) (hr : s.reset = none)
    (h : (s.signalStep new).2.2 = some r) :
    r.trigger_timestamp = new.market_state.timestamp + s.reset_delay := by
  rcases hf : get_favored_token s.state (some new) with _ | tok
  · rw [signalStep_no_signal s new hf] at h; simp [hr] at h
  · rcases hb : s.build_order new tok Side.BUY false with _ | o
    · rw [signalStep_skip s new tok hf hb] at h; simp [hr] at h
    · rw [signalStep_install s new tok o hf hb hr] at h
      simp [FrontRunStrategy.candidateReset] at h
      rw [← h]

/-- With no pending reset and a positive reset delay, the natural-expiry check
of the tick consumes nothing. -/
theorem naturalConsumed_none_of_no_reset (s : FrontRunStrategy)
    (new : SportsStrategyState) (hr : s.reset = none) (hd : 0 < s.reset_delay) :
    s.naturalConsumed new = none := by
  rcases h : s.naturalConsumed new with _ | r
  · rfl
  · exfalso
    obtain ⟨h1, h2⟩ := (naturalConsumed_some_iff s new r).mp h
    have := signalStep_fresh_trigger s new r hr h1
    omega

/-- When a natural expiry is about to fire (and the reset delay is positive,
as configured), the signal phase of the same tick placed only BUY orders:
the early-consumption branch would have replaced the pending reset by a fresh
candidate whose trigger lies `reset_delay` in the future. -/
theorem signalStep_place_only_buys (s : FrontRunStrategy) (new : SportsStrategyState)
    (r : OrderReset) (hd : 0 < s.reset_delay)
    (h1 : (s.signalStep new).2.2 = some r)
    (h2 : r.trigger_timestamp ≤ new.market_state.timestamp) :
    ∀ o ∈ (s.signalStep new).1, o.side = Side.BUY := by
  rcases hf : get_favored_token s.state (some new) with _ | tok
  · rw [signalStep_no_signal s new hf]; intro o ho; exact absurd ho (List.not_mem_nil o)
  · rcases hb : s.build_order new tok Side.BUY false with _ | o
    · rw [signalStep_skip s new tok hf hb]; intro o ho; exact absurd ho (List.not_mem_nil o)
    · have hside := (build_order_buy_fields s new tok false o hb).1
      rcases hr : s.reset with _ | r0
      · rw [signalStep_install s new tok o hf hb hr]
        intro o' ho'
        obtain rfl := List.mem_singleton.mp ho'
        exact hside
      · by_cases ht : r0.token = tok
        · rw [signalStep_merge s new tok o r0 hf hb hr ht]
          intro o' ho'
          obtain rfl := List.mem_singleton.mp ho'
          exact hside
        · exfalso
          rw [signalStep_early s new tok o r0 hf hb hr ht] at h1
          simp only [Option.some_inj] at h1
          have : r.trigger_timestamp =
              new.market_state.timestamp + s.reset_delay := by
            rw [← h1]; rfl
          omega

/-- C6: natural-expiry consumption is one-shot.  (i) If a reset is pending
after signal handling and its trigger has passed, the tick consumes exactly it
and clears the pending reset; (ii) with no pending reset and the configured
positive delay a tick consumes nothing; (iii) hence the tick following a
consuming tick never consumes by natural expiry again — no reset is consumed
by natural expiry on two different ticks. -/
theorem natural_expiry_once (s : FrontRunStrategy)
    (new new2 : SportsStrategyState) (r : OrderReset) :
    ((s.signalStep new).2.2 = some r →
      r.trigger_timestamp ≤ new.market_state.timestamp →
      s.naturalConsumed new = some r ∧ (s.get_orders new).2.2.reset = none) ∧
    (s.reset = none → 0 < s.reset_delay → s.naturalConsumed new = none) ∧
    (s.naturalConsumed new = some r → 0 < s.reset_delay →
      (s.get_orders new).2.2.naturalConsumed new2 = none) := by
  refine ⟨?_, ?_, ?_⟩
  · intro h1 h2
    refine ⟨(naturalConsumed_some_iff s new r).mpr ⟨h1, h2⟩, ?_⟩
    rw [get_orders_expire s new r h1 h2]
  · intro hr hd
    exact naturalConsumed_none_of_no_reset s new hr hd
  · intro hc hd
    obtain ⟨h1, h2⟩ := (naturalConsumed_some_iff s new r).mp hc
    rw [get_orders_expire s new r h1 h2]
    exact naturalConsumed_none_of_no_reset _ new2 rfl hd

/-- C3 (amended): a signal for the token of the pending reset merges the two —
the size is the sum of the pending size and the configured order size, but the
trigger is the fresh candidate's (`tick timestamp + reset_delay`), regardless
of which of the two triggers is earlier; the tick's intents are just the one
BUY. -/
theorem merge_reset_spec (s : FrontRunStrategy) (new : SportsStrategyState)
    (r : OrderReset) (tok : Token) (o : Order)
    (hr : s.reset = some r)
    (hf : get_favored_token s.state (some new) = some tok)
    (ht : r.token = tok)
    (hb : s.build_order new tok Side.BUY false = some o)
    (hd : 0 < s.reset_delay) :
    (s.get_orders new).2.2.reset =
      some { trigger_timestamp := new.market_state.timestamp + s.reset_delay,
             token := tok, size := r.size + s.order_size } ∧
    (s.get_orders new).1 = [o] ∧ (s.get_orders new).2.1 = [] := by
  obtain ⟨hside, htok, hsize⟩ := build_order_buy_fields s new tok false o hb
  have hmerge := signalStep_merge s new tok o r hf hb hr ht
  have hcand : s.candidateReset new o =
      { trigger_timestamp := new.market_state.timestamp + s.reset_delay,
        token := tok, size := s.order_size } := by
    simp [FrontRunStrategy.candidateReset, htok, hsize]
  have h1 : (s.signalStep new).2.2 =
      some { trigger_timestamp := new.market_state.timestamp + s.reset_delay,
             token := tok, size := r.size + s.order_size } := by
    rw [hmerge, hcand]
  have h2 : ¬ (new.market_state.timestamp + s.reset_delay ≤
      new.market_state.timestamp) := by omega
  rw [get_orders_keep s new _ h1 h2, hmerge, hcand]
  exact ⟨rfl, rfl, rfl⟩

/-- C2 (amended): consuming a pending reset — early because the signal favors
the other token, or naturally by trigger expiry — emits exactly one SELL FOK
at the floor price 0.01 whose size is the configured order size (not the
accumulated pending size), plus a cancel intent for every currently open own
order on the reset's token; the consumed reset stops pending (cleared on
natural expiry, replaced by the fresh candidate on early consumption). -/
theorem consume_reset_spec (s : FrontRunStrategy) (new : SportsStrategyState)
    (r : OrderReset) (tok : Token) (o : Order) :
    (s.consume_reset r new =
      ([{ size := s.order_size, price := 1/100, side := Side.SELL, token := r.token,
          order_type := OrderType.FOK, id := none }],
       new.market_state.own_orders.orders.filter (fun ord => ord.token == r.token))) ∧
    ((s.signalStep new).2.2 = some r →
      r.trigger_timestamp ≤ new.market_state.timestamp → 0 < s.reset_delay →
      (s.get_orders new).1 = (s.signalStep new).1 ++ (s.consume_reset r new).1 ∧
      (s.get_orders new).2.1 = (s.signalStep new).2.1 ++ (s.consume_reset r new).2 ∧
      (s.get_orders new).2.2.reset = none ∧
      ((s.get_orders new).1.filter (fun ord => ord.side == Side.SELL)) =
        [{ size := s.order_size, price := 1/100, side := Side.SELL, token := r.token,
           order_type := OrderType.FOK, id := none }]) ∧
    (s.reset = some r →
      get_favored_token s.state (some new) = some tok → r.token ≠ tok →
      s.build_order new tok Side.BUY false = some o → 0 < s.reset_delay →
      s.get_orders new =
        (o :: (s.consume_reset r new).1, (s.consume_reset r new).2,
         { s with state := some new, reset := some (s.candidateReset new o) })) := by
  refine ⟨?_, ?_, ?_⟩
  · rw [FrontRunStrategy.consume_reset, build_order_sell]
    rfl
  · intro h1 h2 hd
    have hall := signalStep_place_only_buys s new r hd h1 h2
    rw [get_orders_expire s new r h1 h2]
    refine ⟨rfl, rfl, rfl, ?_⟩
    rw [List.filter_append]
    have hleft : (s.signalStep new).1.filter (fun ord => ord.side == Side.SELL) = [] := by
      rw [List.filter_eq_nil_iff]
      intro a ha
      have := hall a ha
      simp [this]
    rw [hleft, FrontRunStrategy.consume_reset, build_order_sell]
    simp
  · intro hr hf ht hb hd
    have hearly := signalStep_early s new tok o r hf hb hr ht
    have h1 : (s.signalStep new).2.2 = some (s.candidateReset new o) := by
      rw [hearly]
    have h2 : ¬ ((s.candidateReset new o).trigger_timestamp ≤
        new.market_state.timestamp) := by
      simp only [FrontRunStrategy.candidateReset]
      omega
    rw [get_orders_keep s new _ h1 h2, hearly]

/-- C4 (amended): for a live game (no "Final" in the game clock) with a
previous state present, favored-token detection returns a token iff
`diff_in_diff ≥ 2`, `diff_pct` meets the configured 0.1 threshold (the code
compares with `≥`), and one of the two teams advanced its score; it returns A
exactly when the away score advanced, and B exactly when it did not but the
home score did.  `diff_pct` is total — it is defined as 1 whenever
`old_diff = 0` — so the computation never divides by zero. -/
theorem favored_token_characterization (old new : SportsStrategyState)
    (hfin : strContains "Final" new.score_board.game_time = false) :
    (get_favored_token (some old) (some new) = some Token.A ↔
      (scoreDiffInDiff old.score_board new.score_board ≥ 2 ∧
       scoreDiffPct old.score_board new.score_board ≥ 1/10 ∧
       scoreAwayDiff old.score_board new.score_board > 0)) ∧
    (get_favored_token (some old) (some new) = some Token.B ↔
      (scoreDiffInDiff old.score_board new.score_board ≥ 2 ∧
       scoreDiffPct old.score_board new.score_board ≥ 1/10 ∧
       scoreAwayDiff old.score_board new.score_board ≤ 0 ∧
       scoreHomeDiff old.score_board new.score_board > 0)) ∧
    ((get_favored_token (some old) (some new)).isSome ↔
      (scoreDiffInDiff old.score_board new.score_board ≥ 2 ∧
       scoreDiffPct old.score_board new.score_board ≥ 1/10 ∧
       (scoreAwayDiff old.score_board new.score_board > 0 ∨
        scoreHomeDiff old.score_board new.score_board > 0))) ∧
    (scoreOldDiff old.score_board = 0 →
      scoreDiffPct old.score_board new.score_board = 1) := by
  have hlive : get_favored_token (some old) (some new) =
      if (scoreDiffInDiff old.score_board new.score_board ≥ 2 ∧
          scoreDiffPct old.score_board new.score_board ≥ 1/10) then
        (if scoreAwayDiff old.score_board new.score_board > 0 then some Token.A
         else if scoreHomeDiff old.score_board new.score_board > 0 then some Token.B
         else none)
      else none := by
    unfold get_favored_token
    simp [hfin]
  rw [hlive]
  by_cases hc : scoreDiffInDiff old.score_board new.score_board ≥ 2 ∧
      scoreDiffPct old.score_board new.score_board ≥ 1/10
  · by_cases ha : scoreAwayDiff old.score_board new.score_board > 0
    · rw [if_pos hc, if_pos ha]
      refine ⟨iff_of_true rfl ⟨hc.1, hc.2, ha⟩, ?_, ?_,
        fun h0 => by simp [scoreDiffPct, h0]⟩
      · refine iff_of_false (by simp) ?_
        rintro ⟨-, -, hle, -⟩
        omega
      · exact iff_of_true (by simp) ⟨hc.1, hc.2, Or.inl ha⟩
    · by_cases hh : scoreHomeDiff old.score_board new.score_board > 0
      · rw [if_pos hc, if_neg ha, if_pos hh]
        refine ⟨?_, iff_of_true rfl ⟨hc.1, hc.2, by omega, hh⟩, ?_,
          fun h0 => by simp [scoreDiffPct, h0]⟩
        · refine iff_of_false (by simp) ?_
          rintro ⟨-, -, hgt⟩
          exact ha hgt
        · exact iff_of_true (by simp) ⟨hc.1, hc.2, Or.inr hh⟩
      · rw [if_pos hc, if_neg ha, if_neg hh]
        refine ⟨?_, ?_, ?_, fun h0 => by simp [scoreDiffPct, h0]⟩
        · refine iff_of_false (by simp) ?_
          rintro ⟨-, -, hgt⟩
          exact ha hgt
        · refine iff_of_false (by simp) ?_
          rintro ⟨-, -, -, hgt⟩
          exact hh hgt
        · refine iff_of_false (by simp) ?_
          rintro ⟨-, -, hor⟩
          rcases hor with h | h
          · exact ha h
          · exact hh h
  · rw [if_neg hc]
    refine ⟨?_, ?_, ?_, fun h0 => by simp [scoreDiffPct, h0]⟩
    · refine iff_of_false (by simp) ?_
      rintro ⟨h1, h2, -⟩
      exact hc ⟨h1, h2⟩
    · refine iff_of_false (by simp) ?_
      rintro ⟨h1, h2, -⟩
      exact hc ⟨h1, h2⟩
    · refine iff_of_false (by simp) ?_
      rintro ⟨h1, h2, -⟩
      exact hc ⟨h1, h2⟩

/-- C5 (amended): opening builds a BUY at the best limit price as a GTC when
that price exists; when the ask side is empty, strict mode builds nothing and
non-strict mode falls back to a FOK priced 0.99 (not 1.0). -/
theorem build_order_buy_spec (s : FrontRunStrategy) (st : SportsStrategyState)
    (tok : Token) :
    (∀ (p : Rat) (b : Bool),
      st.market_state.get_best_limit_price tok Side.BUY = some p →
      s.build_order st tok Side.BUY b =
        some { size := s.order_size, price := p, side := Side.BUY, token := tok,
               order_type := OrderType.GTC, id := none }) ∧
    (st.market_state.get_best_limit_price tok Side.BUY = none →
      s.build_order st tok Side.BUY false = none) ∧
    (st.market_state.get_best_limit_price tok Side.BUY = none →
      s.build_order st tok Side.BUY true =
        some { size := s.order_size, price := 99/100, side := Side.BUY, token := tok,
               order_type := OrderType.FOK, id := none }) := by
  refine ⟨?_, ?_, ?_⟩
  · intro p b h
    simp [FrontRunStrategy.build_order, h]
  · intro h
    simp [FrontRunStrategy.build_order, h]
  · intro h
    simp [FrontRunStrategy.build_order, h]

/-- C9: the decision machine is deterministic — two runs from equal strategy
states over equal recorded input sequences return equal intent sequences.
`runFrontRun` threads only the strategy memory and the recorded states; the
embedding of `get_orders` takes no other input (no wall clock: the only
timestamps it reads are those embedded in the inputs). -/
theorem strategy_deterministic (s1 s2 : FrontRunStrategy)
    (xs ys : List SportsStrategyState) (hs : s1 = s2) (hxs : xs = ys) :
    runFrontRun s1 xs = runFrontRun s2 ys := by
  rw [hs, hxs]

/-- C10: `get_orders` never returns normally — after updating the strategy
memory it calls the nonexistent mutating setters
`set_orders_to_place`/`set_orders_to_cancel` on the new state's
`MarketState`, raising `AttributeError` on every tick. -/
theorem get_orders_raises_attribute_error (s : FrontRunStrategy)
    (new : SportsStrategyState) :
    (s.get_orders_py new).1 = Except.error PyError.attributeError ∧
    (s.get_orders_py new).2 = (s.get_orders new).2.2 := by
  exact ⟨rfl, rfl⟩

/-! ### StrategyManager — the reconciliation tick (`strategy.py`) -/

/-- `strategy.py`, `@dataclass MarketOrderBook`. -/
structure MarketOrderBook where
  bids : List OrderBookEntry
  asks : List OrderBookEntry
deriving DecidableEq, Repr

/-- `MarketOrderBook.empty`. -/
def MarketOrderBook.empty : MarketOrderBook :=
  { bids := [], asks := [] }

/-- The own-order/balance snapshot returned by the background
`OrderBookManager.get_order_book()` (`poly_market_maker/orderbook.py`, not
under `src/`); its shape is pinned by the spec's OwnOrderBook data model and
by `get_market_state`'s null test `None in (own_book.orders,
own_book.balances)`: the orders list and the balances mapping can each be
absent. -/
structure ManagerOrderBook where
  orders : Option (List Order)
  balances : Option Balances
  orders_being_placed : Bool
  orders_being_cancelled : Bool
deriving DecidableEq, Repr

/-- The collaborator fetch results a single reconciliation tick reads.
`market_book` is `none` when `clob_api.client.get_order_book` raises or
returns a falsy book; `price_result` is `none` when the price feed raises;
`now` is the wall clock read by `datetime.now()`. -/
structure TickInputs where
  market_book : Option (List OrderBookEntry × List OrderBookEntry)
  own_book : ManagerOrderBook
  price_result : Option Rat
  now : Int
deriving DecidableEq, Repr

/-- `StrategyManager.get_market_orders`: on failure or an empty reply, an
empty book; otherwise bids sorted descending and asks ascending by price. -/
def get_market_orders (i : TickInputs) : MarketOrderBook :=
  match i.market_book with
  | none => MarketOrderBook.empty
  | some (bids, asks) =>
    { bids := bids.mergeSort (fun x y => decide (y.price ≤ x.price)),
      asks := asks.mergeSort (fun x y => decide (x.price ≤ y.price)) }

/-- `StrategyManager.get_token_prices`: price of A from the feed, price of B
its complement.  (The Python rounds both to `MAX_DECIMALS`; `constants.py` is
not under `src/` and the claims do not involve rounding, so the rounding is
the identity of this exact-rational model.) -/
def get_token_prices (price_result : Option Rat) : Option (Rat × Rat) :=
  price_result.map (fun a => (a, 1 - a))

/-- The `MarketState(...)` constructor call at `strategy.py:161-169`.  The
call passes keyword arguments `market=` and `balances=` that
`types.MarketState` (a `slots` dataclass without those fields) does not
accept, and omits the required `own_orders` argument, so Python raises
`TypeError`; the surrounding `except Exception` at `strategy.py:181` catches
it and `get_market_state` returns `None`.  The computed arguments are kept as
parameters so the embedding records what the call would have received. -/
def mkMarketStateCall (_timestamp : Int) (_prices : Rat × Rat)
    (_bids _asks : List OrderBookEntry) (_balances : Balances) :
    Option MarketState :=
  none

/-- `StrategyManager.get_market_state`: fetch the market book (empty on
failure), abort with `None` when the own-order/balance snapshot has a null
component, merge the own orders into the book (the Python comparison
`order.side == "buy"` compares a `Side` enum member with a string and is
therefore always false, so every own order lands on the ask side), re-sort,
fetch prices (abort on failure), then construct the `MarketState` — which
always fails, see `mkMarketStateCall`. -/
def get_market_state (i : TickInputs) : Option MarketState :=
  let market_book := get_market_orders i
  match i.own_book.orders, i.own_book.balances with
  | some own_orders, some balances =>
    let bids := market_book.bids
    let asks := market_book.asks ++
      own_orders.map (fun o => ({ price := o.price, size := o.size } : OrderBookEntry))
    let bids := bids.mergeSort (fun x y => decide (y.price ≤ x.price))
    let asks := asks.mergeSort (fun x y => decide (x.price ≤ y.price))
    match get_token_prices i.price_result with
    | none => none
    | some prices => mkMarketStateCall i.now prices bids asks balances
  | _, _ => none

/-- A call observed at the order manager boundary. -/
inductive DispatchEvent where
  | cancelBatch (orders : List Order)
  | placeBatch (orders : List Order)
deriving DecidableEq, Repr

/-- `StrategyManager.cancel_orders`: forwards to the manager's asynchronous
cancel operation only when the batch is non-empty. -/
def cancel_orders (orders_to_cancel : List Order) : List DispatchEvent :=
  if orders_to_cancel.length > 0 then [DispatchEvent.cancelBatch orders_to_cancel] else []

/-- `StrategyManager.place_orders`: forwards to the manager's asynchronous
place operation only when the batch is non-empty. -/
def place_orders (orders_to_place : List Order) : List DispatchEvent :=
  if orders_to_place.length > 0 then [DispatchEvent.placeBatch orders_to_place] else []

/-- Outcome of one `StrategyManager.synchronize` tick: whether the strategy
was invoked, and the dispatch calls made to the order manager. -/
structure SyncResult where
  strategy_invoked : Bool
  dispatches : List DispatchEvent
deriving DecidableEq, Repr

/-- `StrategyManager.synchronize` (one reconciliation tick): abort with no
strategy call when `get_market_state` returns `None` (which it always does,
see `mkMarketStateCall`); otherwise the strategy is invoked — that call passes
the bare `MarketState` where `FrontRunStrategy.get_orders` expects a
`SportsStrategyState`, so it raises `AttributeError`, swallowed by the
`except` at `strategy.py:206` — and in every case the two dispatch calls at
`strategy.py:203-204` (`self.cancel_orders(...)`, `self.place_orders(...)`)
are commented out, so no dispatch is ever made. -/
def synchronize (i : TickInputs) : SyncResult :=
  match get_market_state i with
  | none => { strategy_invoked := false, dispatches := [] }
  | some _ => { strategy_invoked := true, dispatches := [] }

/-- `get_market_state` aborts on every input: even past the null-snapshot
guard and the price fetch, the `MarketState` constructor call fails. -/
theorem get_market_state_none (i : TickInputs) : get_market_state i = none := by
  unfold get_market_state
  rcases i.own_book.orders with _ | own <;>
    rcases i.own_book.balances with _ | bal <;>
      simp [get_token_prices, mkMarketStateCall]
  rcases i.price_result with _ | p <;> simp

/-- C1: `StrategyManager.synchronize` never dispatches any intents — the
cancel and place forwarding calls are commented out in the source, and the
strategy is not even reached because `get_market_state` always returns
`None`. -/
theorem synchronize_never_dispatches (i : TickInputs) :
    synchronize i = { strategy_invoked := false, dispatches := [] } := by
  unfold synchronize
  rw [get_market_state_none i]

/-- C7: with an unavailable own-order/balance snapshot (orders or balances
null) the tick aborts at the dedicated null guard: `get_market_state` is
`None`, the strategy is not invoked, and no place/cancel dispatch happens. -/
theorem abort_on_missing_snapshot (i : TickInputs)
    (h : i.own_book.orders = none ∨ i.own_book.balances = none) :
    get_market_state i = none ∧
    synchronize i = { strategy_invoked := false, dispatches := [] } := by
  constructor
  · unfold get_market_state
    rcases h with h | h
    · rw [h]
    · rw [h]
      rcases ho : i.own_book.orders with _ | own <;> rfl
  · unfold synchronize
    rw [get_market_state_none i]

/-! ### Witnesses: the theorems with hypotheses applied at concrete inputs -/

/-- Tick 3 carries no signal, so its post-signal reset is the merged pending
reset of `demoS3`. -/
theorem demoTick3_signal :
    (demoS3.signalStep demoSt3).2.2 =
      some { trigger_timestamp := 15, token := Token.A, size := 20 } := by
  have hf : get_favored_token demoS3.state (some demoSt3) = none := by
    rw [demoS3_eq]
    norm_num [get_favored_token, strContains, listContains, List.isPrefixOf,
      scoreDiffInDiff, scoreDiffPct, scoreOldDiff, scoreNewDiff,
      scoreAwayDiff, scoreHomeDiff, demoSt2, demoSt3, demoState]
  rw [signalStep_no_signal demoS3 demoSt3 hf, demoS3_eq]

/-- The tick-3 timestamp is 20. -/
theorem demoSt3_timestamp : demoSt3.market_state.timestamp = 20 := by
  norm_num [demoSt3, demoState, MarketState.make, demoBids, demoAsks,
    List.max?, List.min?]

/-- The tick-2 timestamp is 5. -/
theorem demoSt2_timestamp : demoSt2.market_state.timestamp = 5 := by
  norm_num [demoSt2, demoState, MarketState.make, demoBids, demoAsks,
    List.max?, List.min?]

/-- Witness for `consume_reset_spec` at tick 3: the natural expiry of the
merged reset appends the flatten SELL and the cancel intents, clears the
pending reset, and the tick's place list holds exactly one SELL. -/
theorem consume_reset_spec_witness :
    (demoS3.get_orders demoSt3).2.2.reset = none ∧
    ((demoS3.get_orders demoSt3).1.filter (fun ord => ord.side == Side.SELL)) =
      [{ size := demoS3.order_size, price := 1/100, side := Side.SELL, token := Token.A,
         order_type := OrderType.FOK, id := none }] := by
  have h := (consume_reset_spec demoS3 demoSt3
      { trigger_timestamp := 15, token := Token.A, size := 20 }
      Token.A demoOpenOrder).2.1 demoTick3_signal
      (by rw [demoSt3_timestamp]; norm_num)
      (by rw [demoS3_eq]; norm_num)
  exact ⟨h.2.2.1, h.2.2.2⟩

/-- The tick-2 signal favors A again. -/
theorem demoTick2_favored :
    get_favored_token demoS2.state (some demoSt2) = some Token.A := by
  rw [demoS2_eq]
  norm_num [get_favored_token, strContains, listContains, List.isPrefixOf,
    scoreDiffInDiff, scoreDiffPct, scoreOldDiff, scoreNewDiff,
    scoreAwayDiff, scoreHomeDiff, demoSt1, demoSt2, demoState]

/-- The tick-2 BUY build succeeds at the best ask 0.5. -/
theorem demoTick2_build :
    demoS2.build_order demoSt2 Token.A Side.BUY false =
      some { size := demoS2.order_size, price := 1/2, side := Side.BUY, token := Token.A,
             order_type := OrderType.GTC, id := none } := by
  norm_num +decide [FrontRunStrategy.build_order, MarketState.get_best_limit_price,
    MarketState.get_min_ask, MarketState.get_asks, demoSt2, demoState,
    MarketState.make, demoBids, demoAsks]

/-- Witness for `merge_reset_spec` at tick 2: the merged reset carries the sum
of the sizes and the fresh candidate's trigger. -/
theorem merge_reset_spec_witness :
    (demoS2.get_orders demoSt2).2.2.reset =
      some { trigger_timestamp := demoSt2.market_state.timestamp + demoS2.reset_delay,
             token := Token.A, size := (10 : Rat) + demoS2.order_size } := by
  exact (merge_reset_spec demoS2 demoSt2
      { trigger_timestamp := 10, token := Token.A, size := 10 } Token.A
      { size := demoS2.order_size, price := 1/2, side := Side.BUY, token := Token.A,
        order_type := OrderType.GTC, id := none }
      (by rw [demoS2_eq]) demoTick2_favored rfl demoTick2_build
      (by rw [demoS2_eq]; norm_num)).1

/-- Witness for `favored_token_characterization`: the spec's own example —
scores (0,0) to (3,0) force `diff_pct = 1` via the `old_diff = 0` special
case, `diff_in_diff = 3 ≥ 2`, and the signal fires for A. -/
theorem favored_token_characterization_witness :
    get_favored_token (some demoSt0) (some demoSt1) = some Token.A := by
  refine ((favored_token_characterization demoSt0 demoSt1 ?_).1).mpr ?_
  · norm_num [strContains, listContains, List.isPrefixOf, demoSt1, demoState]
  · norm_num [scoreDiffInDiff, scoreDiffPct, scoreOldDiff, scoreNewDiff,
      scoreAwayDiff, scoreHomeDiff, demoSt0, demoSt1, demoState]

/-- Witness for `build_order_buy_spec`: on the empty-ask state, strict mode
builds nothing and non-strict mode builds the 0.99 FOK. -/
theorem build_order_buy_spec_witness :
    FrontRunStrategy.init.build_order noAskState Token.A Side.BUY false = none ∧
    FrontRunStrategy.init.build_order noAskState Token.A Side.BUY true =
      some { size := FrontRunStrategy.init.order_size, price := 99/100, side := Side.BUY,
             token := Token.A, order_type := OrderType.FOK, id := none } := by
  have hnone : noAskState.market_state.get_best_limit_price Token.A Side.BUY = none := by
    norm_num [MarketState.get_best_limit_price, MarketState.get_min_ask,
      MarketState.get_asks, noAskState, MarketState.make, demoBids]
  exact ⟨(build_order_buy_spec FrontRunStrategy.init noAskState Token.A).2.1 hnone,
         (build_order_buy_spec FrontRunStrategy.init noAskState Token.A).2.2 hnone⟩

/-- Witness for `natural_expiry_once` at tick 3: the merged reset is consumed
exactly there, and the immediately following tick consumes nothing. -/
theorem natural_expiry_once_witness :
    demoS3.naturalConsumed demoSt3 =
      some { trigger_timestamp := 15, token := Token.A, size := 20 } ∧
    (demoS3.get_orders demoSt3).2.2.naturalConsumed demoSt3 = none := by
  have h := natural_expiry_once demoS3 demoSt3 demoSt3
      { trigger_timestamp := 15, token := Token.A, size := 20 }
  have h1 := h.1 demoTick3_signal (by rw [demoSt3_timestamp]; norm_num)
  exact ⟨h1.1, h.2.2 h1.1 (by rw [demoS3_eq]; norm_num)⟩

/-- A tick input whose own-order component is null. -/
def missingOrdersInput : TickInputs :=
  { market_book := some (demoBids, demoAsks),
    own_book := { orders := none, balances := some { collateral := 1000, tokenA := 0, tokenB := 0 },
                  orders_being_placed := false, orders_being_cancelled := false },
    price_result := some (1/2),
    now := 0 }

/-- Witness for `abort_on_missing_snapshot` at a concrete torn read. -/
theorem abort_on_missing_snapshot_witness :
    get_market_state missingOrdersInput = none ∧
    synchronize missingOrdersInput = { strategy_invoked := false, dispatches := [] } :=
  abort_on_missing_snapshot missingOrdersInput (Or.inl rfl)

/-- Witness for `strategy_deterministic` on the recorded demo run. -/
theorem strategy_deterministic_witness :
    runFrontRun FrontRunStrategy.init [demoSt0, demoSt1, demoSt2, demoSt3] =
      runFrontRun FrontRunStrategy.init [demoSt0, demoSt1, demoSt2, demoSt3] :=
  strategy_deterministic FrontRunStrategy.init FrontRunStrategy.init
    [demoSt0, demoSt1, demoSt2, demoSt3] [demoSt0, demoSt1, demoSt2, demoSt3] rfl rfl

end PolyMM
